import Mathlib

/-!
Shallow embedding of `product_import/wizard/product_import.py` (the Odoo
transient model `product.import`): XML parse dispatch, product matching by
barcode, supplier-info (priced offer) reconciliation, and the chunked
dispatch performed by `import_button`.

Conventions of the embedding:
- Odoo record ids are positive integers; a relational field read through
  `.id` yields the id or `False` for an empty record, modelled as
  `Option Nat` (`none` models `False`).
- Dates are modelled as integers counting days; `date.today()` becomes an
  explicit `today : Int` argument and `timedelta(days=1)` is `1`.
- `price` and `min_qty` are Python floats of which the code only tests
  equality; they are modelled as `Int` (any type with decidable equality
  preserves the control flow).
- External capabilities (the `business.document.import` matchers,
  `lxml.etree.fromstring`, the overridable `parse_xml_catalogue`, the
  backing store) are passed in as explicit function or list arguments.
-/

namespace ProductImport

/-- One parsed catalogue line: the dict handed to `_prepare_product`.
`barcode = none` models a `None` value and `some ""` an empty string; both
are falsy in `if not parsed_product["barcode"]`.  `sale_delay` and
`active` model keys read with `.get` (hence possibly absent). -/
structure ParsedProduct where
  barcode : Option String
  code : String
  name : String
  description : String
  uom : String
  currency : String
  price : Int
  min_qty : Int
  product_code : String
  sale_delay : Option Int
  active : Option Bool
  deriving DecidableEq, Repr

/-- An existing `product.supplierinfo` record (`s_info` in
`_prepare_supplierinfo`).  `name` is the seller partner id read through
`s_info.name.id`, `company_id` the company id read through
`s_info.company_id.id`. -/
structure OfferRecord where
  id : Nat
  name : Option Nat
  company_id : Option Nat
  product_code : String
  min_qty : Int
  price : Int
  currency_id : Option Nat
  delay : Int
  date_end : Option Int
  deriving DecidableEq, Repr

/-- The candidate offer dict (`seller_info`) built in `_prepare_product`.
The dict built there has no `date_start` key; `_prepare_supplierinfo` may
add one with `setdefault`, so the field is an `Option` defaulting to
`none`. -/
structure SellerInfo where
  name : Option Nat
  product_code : String
  price : Int
  currency_id : Option Nat
  min_qty : Int
  company_id : Option Nat
  delay : Int
  date_start : Option Int := none
  deriving DecidableEq, Repr

/-- The `values` member of an offer command tuple: either the dict
`{"date_end": yesterday}` or the full `seller_info` dict. -/
inductive CmdVals where
  | dateEnd (d : Int)
  | info (si : SellerInfo)
  deriving DecidableEq, Repr

/-- A one2many command tuple `(command, line_id, values)` as appended by
`_prepare_supplierinfo` and dispatched by `_create_update_product`. -/
structure OfferCmd where
  command : Nat
  line_id : Nat
  values : CmdVals
  deriving DecidableEq, Repr

/-- An existing `product.product` record, with its supplierinfo lines. -/
structure ProductRecord where
  id : Nat
  barcode : Option String
  active : Bool
  default_code : String
  name : String
  seller_ids : List OfferRecord
  deriving DecidableEq, Repr

/-! ### Chunking (`import_button`)

`import_button` builds `iterators = [iter(catalogue["products"])] * chunk_size`
and iterates `zip_longest(*iterators)`: tuples of `chunk_size` entries, the
last one padded with `None`.  Then
`if products[-1] is None: products = [p for p in products if p]`. -/

/-- Python truthiness of a parsed product dict: every `ParsedProduct`
models a dict carrying the keys `_prepare_product` reads, hence a
non-empty dict, hence truthy. -/
def pyTruthy (_ : ParsedProduct) : Bool := true

/-- Python truthiness of one slot of a `zip_longest` tuple: the fill value
`None` is falsy, a product is as truthy as the dict it models. -/
def optTruthy (tr : α → Bool) : Option α → Bool
  | none => false
  | some a => tr a

/-- `products[-1] is None` as a Bool: the last slot of the tuple is the
`zip_longest` fill value. -/
def lastIsNone (chunk : List (Option α)) : Bool :=
  match chunk.getLast? with
  | some none => true
  | _ => false

/-- The tuples produced by `zip_longest(*[iter(l)] * c)`: groups of `c`
elements, the trailing group padded with `None`; no tuple at all when the
list is empty, or when `c = 0` (`zip_longest()` of no iterators is empty). -/
def chunksPadded (c : Nat) : List α → List (List (Option α))
  | [] => []
  | a :: l =>
    if c = 0 then []
    else (((a :: l).take c).map some ++ List.replicate (c - (a :: l).length) none)
      :: chunksPadded c ((a :: l).drop c)
termination_by l => l.length
decreasing_by
  simp only [List.length_drop, List.length_cons]
  omega

/-- The per-chunk fixup in `import_button`:
`if products[-1] is None: products = [p for p in products if p]`. -/
def chunkDispatch (tr : α → Bool) (chunk : List (Option α)) : List (Option α) :=
  if lastIsNone chunk then chunk.filter (optTruthy tr) else chunk

/-- The chunks that `import_button` hands to `_create_update_products`. -/
def importButtonChunks (tr : α → Bool) (l : List α) (c : Nat) :
    List (List (Option α)) :=
  (chunksPadded c l).map (chunkDispatch tr)

/-- A concrete parsed product line, for witnesses. -/
def sampleParsed (n : Nat) : ParsedProduct :=
  { barcode := some (toString n)
    code := "C"
    name := "N"
    description := "D"
    uom := "PCE"
    currency := "EUR"
    price := 10
    min_qty := 1
    product_code := "S"
    sale_delay := none
    active := none }

/-! ### Offer reconciliation (`_prepare_supplierinfo`) -/

/-- Negation of the first `continue` guard:
`s_info.name.id != seller_info["name"]`. -/
def offerSellerMatch (s : OfferRecord) (si : SellerInfo) : Bool :=
  s.name == si.name

/-- Negation of the second `continue` guard:
`s_info.company_id.id not in (seller_info["company_id"], False)`. -/
def offerCompanyOk (s : OfferRecord) (si : SellerInfo) : Bool :=
  s.company_id == si.company_id || s.company_id == none

/-- The third `continue` guard:
`s_info.date_end and s_info.date_end < today`. -/
def offerEnded (today : Int) (s : OfferRecord) : Bool :=
  match s.date_end with
  | none => false
  | some d => d < today

/-- The field-identity test of `_prepare_supplierinfo` (code, quantity
break, price, currency, company, lead time). -/
def offerIdentical (s : OfferRecord) (si : SellerInfo) : Bool :=
  s.product_code == si.product_code && s.min_qty == si.min_qty
    && s.price == si.price && s.currency_id == si.currency_id
    && s.company_id == si.company_id && s.delay == si.delay

/-- The loop of `_prepare_supplierinfo` over `product.seller_ids`,
threading the `seller_id` flag and the `result` list. -/
def supplierLoop (today : Int) (si : SellerInfo) :
    Option Nat → List OfferCmd → List OfferRecord → Option Nat × List OfferCmd
  | sellerId, result, [] => (sellerId, result)
  | sellerId, result, s :: rest =>
    if ¬ offerSellerMatch s si then supplierLoop today si sellerId result rest
    else if ¬ offerCompanyOk s si then supplierLoop today si sellerId result rest
    else if offerEnded today s then supplierLoop today si sellerId result rest
    else if offerIdentical s si then supplierLoop today si (some s.id) result rest
    else supplierLoop today si sellerId
      (result ++ [⟨1, s.id, CmdVals.dateEnd (today - 1)⟩]) rest

/-- `_prepare_supplierinfo(seller_info, product)`: `today - 1` models
`yesterday = today - timedelta(days=1)`; when no identical offer set
`seller_id`, the `(0, 0, seller_info)` create is appended with
`date_start` defaulted (`setdefault`) to `today`. -/
def prepareSupplierinfo (today : Int) (si : SellerInfo)
    (product : Option ProductRecord) : List OfferCmd :=
  let st :=
    match product with
    | none => ((none : Option Nat), ([] : List OfferCmd))
    | some p => supplierLoop today si none [] p.seller_ids
  match st with
  | (none, result) =>
    result ++ [⟨0, 0, CmdVals.info { si with date_start := some (si.date_start.getD today) }⟩]
  | (some _, result) => result

/-- The full pass filter of `_prepare_supplierinfo`: offers of the same
seller, compatible company, not already ended before today. -/
def offerConsidered (today : Int) (si : SellerInfo) (s : OfferRecord) : Bool :=
  offerSellerMatch s si && offerCompanyOk s si && ! offerEnded today s

/-- The offers the loop marks as `keep` (sets `seller_id`). -/
def keptOffers (today : Int) (si : SellerInfo) (l : List OfferRecord) :
    List OfferRecord :=
  l.filter (fun s => offerConsidered today si s && offerIdentical s si)

/-- The update commands the loop appends. -/
def terminatedCmds (today : Int) (si : SellerInfo) (l : List OfferRecord) :
    List OfferCmd :=
  (l.filter (fun s => offerConsidered today si s && ! offerIdentical s si)).map
    (fun s => ⟨1, s.id, CmdVals.dateEnd (today - 1)⟩)

/-- A concrete candidate offer, for witnesses. -/
def sampleSellerInfo : SellerInfo :=
  { name := some 7, product_code := "S", price := 10, currency_id := some 1,
    min_qty := 1, company_id := none, delay := 5 }

/-- Same seller as the candidate, global company, still active, but a
different price: a conflicting offer. -/
def sampleOfferConflict : OfferRecord :=
  { id := 11, name := some 7, company_id := none, product_code := "S",
    min_qty := 1, price := 12, currency_id := some 1, delay := 5, date_end := none }

/-- Field-identical to `sampleSellerInfo`. -/
def sampleOfferIdentical : OfferRecord :=
  { id := 12, name := some 7, company_id := none, product_code := "S",
    min_qty := 1, price := 10, currency_id := some 1, delay := 5, date_end := none }

/-- An offer of another seller. -/
def sampleOfferOther : OfferRecord :=
  { id := 13, name := some 8, company_id := none, product_code := "S",
    min_qty := 1, price := 10, currency_id := some 1, delay := 5, date_end := none }

def sampleProductIdentical : ProductRecord :=
  { id := 1, barcode := some "123", active := true, default_code := "C",
    name := "N", seller_ids := [sampleOfferIdentical, sampleOfferOther] }

def sampleProductScope : ProductRecord :=
  { id := 2, barcode := some "124", active := true, default_code := "C",
    name := "N", seller_ids := [sampleOfferConflict, sampleOfferOther] }

/-! ### Product matching and writes (`_prepare_product`,
`_create_update_product(s)`) -/

/-- Python truthiness of `parsed_product["barcode"]`:
`None` and the empty string are falsy. -/
def barcodeTruthy : Option String → Bool
  | none => false
  | some s => s != ""

/-- The log line of the reject path.  Python formats the whole parsed
dict with `%s`; the model records the line's text fields. -/
def rejectMsg (pp : ParsedProduct) : String :=
  "Cannot import product without barcode: " ++ pp.code ++ " " ++ pp.name
    ++ " " ++ pp.description ++ " " ++ pp.product_code

/-- `env["product.product"].with_context(active_test=False)
.search([("barcode", "=", barcode)], limit=1)`.  With `activeTest = true`
Odoo would add `("active", "=", True)` to the domain; `_prepare_product`
passes `active_test=False`, so archived products are searched too.  The
domain tests nothing but barcode equality. -/
def searchProduct (store : List ProductRecord) (activeTest : Bool)
    (bc : Option String) : Option ProductRecord :=
  (store.filter (fun p => p.barcode == bc && (!activeTest || p.active))).head?

/-- The fields dict `product_vals` built by `_prepare_product`, together
with the `seller_ids` commands and the optional `recordset` key. -/
structure ProductVals where
  active : Bool
  default_code : String
  barcode : Option String
  name : String
  description : String
  type : String
  uom_id : Nat
  uom_po_id : Nat
  company_id : Option Nat
  seller_ids : List OfferCmd
  recordset : Option ProductRecord
  deriving DecidableEq, Repr

/-- `_prepare_product(parsed_product, chatter_msg, seller)`.
`store` is the backing `product.product` table; `matchUom` and
`matchCurrency` model the external `business.document.import` matchers
(consumed as black boxes); `companyCtx` is
`self.env.context.get("product_company_id", False)`; `seller` is
`seller and seller.id or False`.  Returns the `product_vals` (or `none`,
the falsy reject) and the updated `chatter_msg`. -/
def prepareProduct (today : Int) (store : List ProductRecord)
    (matchUom matchCurrency : String → Nat) (companyCtx : Option Nat)
    (seller : Option Nat) (pp : ParsedProduct) (chatter : List String) :
    Option ProductVals × List String :=
  if barcodeTruthy pp.barcode then
    let product := searchProduct store false pp.barcode
    let uom := matchUom pp.uom
    let currency := matchCurrency pp.currency
    let seller_info : SellerInfo :=
      { name := seller
        product_code := pp.product_code
        price := pp.price
        currency_id := some currency
        min_qty := pp.min_qty
        company_id := companyCtx
        delay := pp.sale_delay.getD 0 }
    (some
      { active := pp.active.getD true
        default_code := pp.code
        barcode := pp.barcode
        name := pp.name
        description := pp.description
        type := "product"
        uom_id := uom
        uom_po_id := uom
        company_id := none
        seller_ids := prepareSupplierinfo today seller_info product
        recordset := product },
     chatter)
  else
    (none, chatter ++ [rejectMsg pp])

/-- One write against the backing store, as performed by
`_create_update_product`. -/
inductive WriteOp where
  | offerWrite (line_id : Nat) (values : CmdVals)
  | offerCreate (product_id : Nat) (values : CmdVals)
  | productWrite (id : Nat) (vals : ProductVals)
  | productCreate (id : Nat) (vals : ProductVals)
  | productArchive (id : Nat)
  deriving DecidableEq, Repr

/-- The supplierinfo command loop of `_create_update_product`, including
its `raise RuntimeError(f"Command {command} not supported")` branch
(modelled as `.error`). -/
def runOfferCommands (productId : Nat) : List OfferCmd → Except String (List WriteOp)
  | [] => .ok []
  | cmd :: rest =>
    if cmd.command = 1 then
      (runOfferCommands productId rest).map
        (fun ops => WriteOp.offerWrite cmd.line_id cmd.values :: ops)
    else if cmd.command = 0 then
      (runOfferCommands productId rest).map
        (fun ops => WriteOp.offerCreate productId cmd.values :: ops)
    else
      .error ("Command " ++ toString cmd.command ++ " not supported")

/-- `_create_update_product(product_vals)`: update path when the vals
carry a `recordset` (the `seller_ids` commands are dispatched, then the
remaining vals are written), create path otherwise (the product is
created, then archived when `active` was falsy).  `newId` models the id
the backing store assigns to a created product.  Returns the writes and
the returned log message. -/
def createUpdateProduct (newId : Nat) (vals : ProductVals) :
    Except String (List WriteOp × String) :=
  match vals.recordset with
  | some product =>
    (runOfferCommands product.id vals.seller_ids).map
      (fun offerOps =>
        (offerOps ++ [WriteOp.productWrite product.id
            { vals with recordset := none, seller_ids := [] }],
         "Product created/updated " ++ toString product.id ++ "\n"))
  | none =>
    .ok ([WriteOp.productCreate newId { vals with recordset := none }]
        ++ (if vals.active then [] else [WriteOp.productArchive newId]),
      "Product created/updated " ++ toString newId ++ "\n")

/-- `"\n".join(log_msgs)`. -/
def joinLog : List String → String
  | [] => ""
  | [m] => m
  | m :: rest => m ++ "\n" ++ joinLog rest

/-- The loop of `_create_update_products`: `log_msgs` is threaded through
`_prepare_product` (which appends reject messages to it), a falsy
`product_vals` skips the line, otherwise the product is written and the
returned message appended.  `nid` models the store's id sequence. -/
def createUpdateLoop (today : Int) (store : List ProductRecord)
    (matchUom matchCurrency : String → Nat) (companyCtx : Option Nat)
    (sellerId : Option Nat) :
    Nat → List String → List ParsedProduct → Except String (List String × List WriteOp)
  | _, msgs, [] => .ok (msgs, [])
  | nid, msgs, pp :: rest =>
    match prepareProduct today store matchUom matchCurrency companyCtx sellerId pp msgs with
    | (none, msgs2) =>
      createUpdateLoop today store matchUom matchCurrency companyCtx sellerId
        (nid + 1) msgs2 rest
    | (some vals, msgs2) =>
      match createUpdateProduct nid vals with
      | .error e => .error e
      | .ok (ops, m) =>
        match createUpdateLoop today store matchUom matchCurrency companyCtx sellerId
            (nid + 1) (msgs2 ++ [m]) rest with
        | .error e => .error e
        | .ok (msgsF, opsF) => .ok (msgsF, ops ++ opsF)

/-- `_create_update_products(products, seller_id)`: the queue-job body;
returns `"\n".join(log_msgs)` and the writes performed. -/
def createUpdateProducts (today : Int) (store : List ProductRecord)
    (matchUom matchCurrency : String → Nat) (companyCtx : Option Nat)
    (sellerId : Option Nat) (newId : Nat) (products : List ParsedProduct) :
    Except String (String × List WriteOp) :=
  (createUpdateLoop today store matchUom matchCurrency companyCtx sellerId
      newId [] products).map
    (fun r => (joinLog r.1, r.2))

/-- A parsed line whose barcode is absent (`None`). -/
def sampleNoBarcode : ParsedProduct :=
  { sampleParsed 1 with barcode := none }

/-- An archived product carrying barcode `"123"`. -/
def sampleArchived : ProductRecord :=
  { id := 5, barcode := some "123", active := false, default_code := "C",
    name := "N", seller_ids := [] }

/-- A parsed line with barcode `"123"`. -/
def sampleParsedMatch : ParsedProduct :=
  { sampleParsed 0 with barcode := some "123" }

/-! ### Format detection (`product_file_change`, `_parse_xml`,
`_parse_file`) -/

/-- Outcome of one call to the overridable `parse_xml_catalogue`:
`raised` models a raised `UserError` or `NotImplementedError`, `value v`
a normal return (`none` models returning `None`; in detection mode a
returned doc type is abstracted to a `Nat`). -/
inductive ParserOutcome where
  | raised
  | value (doc : Option Nat)
  deriving DecidableEq, Repr

/-- The base `parse_xml_catalogue` of this module: it unconditionally
raises `NotImplementedError` ("This file is not supported. Did you
install the module to support this XML format?"); format plugins
override it. -/
def parseXmlCatalogueBase : Nat → Bool → ParserOutcome :=
  fun _ _ => ParserOutcome.raised

/-- `_parse_xml(data)`: returns `(xml_root, error_msg)`.  `fromstring`
models `lxml.etree.fromstring` (`none` = `XMLSyntaxError`), `parser` the
(possibly overridden) `parse_xml_catalogue`, `data` the raw bytes. -/
def parseXml (fromstring : List Nat → Option Nat)
    (parser : Nat → Bool → ParserOutcome) (data : List Nat) :
    Option Nat × Option String :=
  if data = [] then (none, some "No data provided")
  else
    match fromstring data with
    | none => (none, some "This XML file is not XML-compliant")
    | some root =>
      match parser root true with
      | ParserOutcome.raised => (some root, some "Unsupported XML document")
      | ParserOutcome.value _ => (some root, none)

/-- `_parse_file(filename, filecontent, detect_doc_type)`: raises
(`.error`) the `error_msg` of `_parse_xml` as a `UserError`, else calls
`parse_xml_catalogue` with the requested detection mode; a raise from
that call propagates.  The two asserts are modelled as errors. -/
def parseFile (fromstring : List Nat → Option Nat)
    (parser : Nat → Bool → ParserOutcome) (filename : String)
    (filecontent : List Nat) (detect : Bool) : Except String (Option Nat) :=
  if filename = "" then .error "Missing filename"
  else if filecontent = [] then .error "Missing file content"
  else
    match parseXml fromstring parser filecontent with
    | (_, some msg) => .error msg
    | (none, none) => .ok none    -- unreachable: `_parse_xml` sets the root whenever it sets no error
    | (some root, none) =>
      match parser root detect with
      | ParserOutcome.raised => .error "NotImplementedError: this file is not supported"
      | ParserOutcome.value v => .ok v

/-- The outcome of the `@api.onchange` handler `product_file_change`. -/
inductive ChangeResult where
  | nothing                       -- early return: no filename or no file
  | warning (title msg : String)  -- returns the warning dict
  | raised (msg : String)         -- an exception escapes the onchange
  | ok                            -- normal fall-through, no warning
  deriving DecidableEq, Repr

/-- `product_file_change`: `file` models the decoded file content.  The
warning dict is returned exactly when `_parse_file` returns a falsy doc
type (`doc_type is None`); the quotes Python puts around the filename in
the message are omitted. -/
def productFileChange (fromstring : List Nat → Option Nat)
    (parser : Nat → Bool → ParserOutcome) (filename : String)
    (file : List Nat) : ChangeResult :=
  if filename = "" ∨ file = [] then ChangeResult.nothing
  else
    match parseFile fromstring parser filename file true with
    | .error m => ChangeResult.raised m
    | .ok none => ChangeResult.warning "Unsupported file format"
        ("This file " ++ filename ++ " cannot be imported.")
    | .ok (some _) => ChangeResult.ok

/-! ### Import orchestration (`import_button`) -/

/-- The parsed catalogue dict.  The `attachments` entry is consumed only
by the external `post_create_or_update` and is omitted. -/
structure Catalogue where
  products : List ParsedProduct
  seller : String
  company : Option String
  chatter_msg : List String
  deriving DecidableEq, Repr

/-- `_get_company_id(catalogue)`: `lookupPartner` models
`_match_partner(..., raise_exception=False)` (`none` = no match) and
`lookupCompany` the `res.company` search by `partner_id` (`none` models
the empty recordset, whose `.id` reads as `False`). -/
def getCompanyId (lookupPartner : String → Option Nat)
    (lookupCompany : Nat → Option Nat) (cat : Catalogue) : Option Nat :=
  match cat.company with
  | none => none
  | some ref =>
    match lookupPartner ref with
    | none => none
    | some pid => lookupCompany pid

/-- The observable steps of `import_button` after parsing, in program
order. -/
inductive ImportEvent where
  | resolveCompany (companyId : Option Nat)
  | resolveSeller (sellerId : Nat)
  | scheduleChunk (products : List (Option ParsedProduct)) (sellerId : Nat)
  | recordSource (sellerId : Nat)
  deriving DecidableEq, Repr

/-- `import_button(chunk_size)` from the point where
`parse_product_catalogue` has run (`parsed` is its outcome, `.error` a
raised `UserError`).  `lookupSeller` models
`_match_partner(catalogue["seller"], ..., partner_type="supplier")`,
which raises when it finds none (the message text lives in the external
`business.document.import`).  Returns the ordered event trace and
`some msg` when a `UserError` aborts the run. -/
def importButtonRun (lookupPartner : String → Option Nat)
    (lookupCompany : Nat → Option Nat) (lookupSeller : String → Option Nat)
    (parsed : Except String Catalogue) (chunkSize : Nat) :
    List ImportEvent × Option String :=
  match parsed with
  | .error m => ([], some m)
  | .ok cat =>
    if cat.products = [] then
      ([], some "This catalogue doesn't have any product!")
    else
      let companyId := getCompanyId lookupPartner lookupCompany cat
      match lookupSeller cat.seller with
      | none => ([ImportEvent.resolveCompany companyId], some "No partner found")
      | some sellerId =>
        ([ImportEvent.resolveCompany companyId, ImportEvent.resolveSeller sellerId]
          ++ (importButtonChunks pyTruthy cat.products chunkSize).map
              (fun ch => ImportEvent.scheduleChunk ch sellerId)
          ++ [ImportEvent.recordSource sellerId], none)

/-- A parsed catalogue with no product. -/
def sampleCatalogueEmpty : Catalogue :=
  { products := [], seller := "ACME", company := none, chatter_msg := [] }

/-- A parsed catalogue with three products and a company reference. -/
def sampleCatalogue : Catalogue :=
  { products := [sampleParsed 1, sampleParsed 2, sampleParsed 3],
    seller := "ACME", company := some "HQ", chatter_msg := [] }

/-! ### Properties -/

theorem chunksPadded_nil (c : Nat) : chunksPadded c ([] : List α) = [] := by
  rw [chunksPadded]

theorem chunksPadded_cons (c : Nat) (hc : 0 < c) (l : List α) (hl : l ≠ []) :
    chunksPadded c l =
      ((l.take c).map some ++ List.replicate (c - l.length) none)
        :: chunksPadded c (l.drop c) := by
  obtain ⟨a, l', rfl⟩ := List.exists_cons_of_ne_nil hl
  rw [chunksPadded, if_neg (Nat.pos_iff_ne_zero.mp hc)]

theorem getLast?_append_replicate_none (xs : List (Option α)) (k : Nat)
    (hk : 0 < k) : (xs ++ List.replicate k (none : Option α)).getLast? = some none := by
  obtain ⟨m, rfl⟩ : ∃ m, k = m + 1 := ⟨k - 1, by omega⟩
  rw [List.replicate_succ', ← List.append_assoc, List.getLast?_concat]

theorem filter_optTruthy_map_some (tr : α → Bool) (htr : ∀ a, tr a = true)
    (xs : List α) : (xs.map some).filter (optTruthy tr) = xs.map some := by
  rw [List.filter_eq_self]
  intro a ha
  obtain ⟨b, _, rfl⟩ := List.mem_map.mp ha
  simp [optTruthy, htr]

theorem filter_optTruthy_replicate_none (tr : α → Bool) (k : Nat) :
    (List.replicate k (none : Option α)).filter (optTruthy tr) = [] := by
  rw [List.filter_eq_nil_iff]
  intro a ha
  rw [List.eq_of_mem_replicate ha]
  simp [optTruthy]

theorem chunkDispatch_eq (tr : α → Bool) (htr : ∀ a, tr a = true)
    (xs : List α) (k : Nat) :
    chunkDispatch tr (xs.map some ++ List.replicate k none) = xs.map some := by
  unfold chunkDispatch
  rcases Nat.eq_zero_or_pos k with hk | hk
  · subst hk
    simp only [List.replicate, List.append_nil]
    by_cases hb : lastIsNone (xs.map some) = true
    · rw [if_pos hb, filter_optTruthy_map_some tr htr]
    · rw [if_neg hb]
  · have hlast := getLast?_append_replicate_none (xs.map some) k hk
    have hb : lastIsNone (xs.map some ++ List.replicate k none) = true := by
      unfold lastIsNone
      rw [hlast]
    rw [if_pos hb, List.filter_append, filter_optTruthy_map_some tr htr,
      filter_optTruthy_replicate_none, List.append_nil]

theorem importButtonChunks_nil (tr : α → Bool) (c : Nat) :
    importButtonChunks tr ([] : List α) c = [] := by
  simp [importButtonChunks, chunksPadded_nil]

theorem importButtonChunks_cons (tr : α → Bool) (htr : ∀ a, tr a = true)
    (c : Nat) (hc : 0 < c) (l : List α) (hl : l ≠ []) :
    importButtonChunks tr l c =
      (l.take c).map some :: importButtonChunks tr (l.drop c) c := by
  unfold importButtonChunks
  rw [chunksPadded_cons c hc l hl, List.map_cons, chunkDispatch_eq tr htr]

theorem importButtonChunks_length (tr : α → Bool) (htr : ∀ a, tr a = true)
    (c : Nat) (hc : 0 < c) (l : List α) :
    (importButtonChunks tr l c).length = (l.length + c - 1) / c := by
  by_cases hl : l = []
  · subst hl
    rw [importButtonChunks_nil]
    symm
    simp only [List.length_nil]
    exact Nat.div_eq_of_lt (by omega)
  · rw [importButtonChunks_cons tr htr c hc l hl, List.length_cons,
      importButtonChunks_length tr htr c hc (l.drop c)]
    simp only [List.length_drop]
    have h1 : 0 < l.length := List.length_pos.mpr hl
    by_cases hlc : l.length ≤ c
    · have e0 : l.length - c = 0 := by omega
      rw [e0]
      have e1 : (0 + c - 1) / c = 0 := Nat.div_eq_of_lt (by omega)
      have e2 : l.length + c - 1 = l.length - 1 + c := by omega
      rw [e1, e2, Nat.add_div_right _ hc, Nat.div_eq_of_lt (by omega)]
    · push_neg at hlc
      have e1 : l.length - c + c - 1 = l.length - 1 := by omega
      have e2 : l.length + c - 1 = l.length - 1 + c := by omega
      rw [e1, e2, Nat.add_div_right _ hc]
termination_by l.length
decreasing_by
  simp only [List.length_drop]
  have : 0 < l.length := List.length_pos.mpr hl
  omega

theorem importButtonChunks_join (tr : α → Bool) (htr : ∀ a, tr a = true)
    (c : Nat) (hc : 0 < c) (l : List α) :
    (importButtonChunks tr l c).flatten = l.map some := by
  by_cases hl : l = []
  · subst hl
    rw [importButtonChunks_nil]
    rfl
  · rw [importButtonChunks_cons tr htr c hc l hl, List.flatten_cons,
      importButtonChunks_join tr htr c hc (l.drop c), ← List.map_append,
      List.take_append_drop]
termination_by l.length
decreasing_by
  simp only [List.length_drop]
  have : 0 < l.length := List.length_pos.mpr hl
  omega

theorem importButtonChunks_sizes (tr : α → Bool) (htr : ∀ a, tr a = true)
    (c : Nat) (hc : 0 < c) (l : List α) :
    ∀ ch ∈ importButtonChunks tr l c,
      1 ≤ ch.length ∧ ch.length ≤ c ∧ (none : Option α) ∉ ch := by
  by_cases hl : l = []
  · subst hl
    rw [importButtonChunks_nil]
    intro ch hch
    exact absurd hch (List.not_mem_nil ch)
  · rw [importButtonChunks_cons tr htr c hc l hl]
    intro ch hch
    rcases List.mem_cons.mp hch with h | h
    · subst h
      have h1 : 0 < l.length := List.length_pos.mpr hl
      refine ⟨?_, ?_, ?_⟩
      · simp only [List.length_map, List.length_take]
        omega
      · simp only [List.length_map, List.length_take]
        omega
      · intro hmem
        obtain ⟨b, _, hb⟩ := List.mem_map.mp hmem
        exact Option.noConfusion hb
    · exact importButtonChunks_sizes tr htr c hc (l.drop c) ch h
termination_by l.length
decreasing_by
  simp only [List.length_drop]
  have : 0 < l.length := List.length_pos.mpr hl
  omega

theorem importButtonChunks_full (tr : α → Bool) (htr : ∀ a, tr a = true)
    (c : Nat) (hc : 0 < c) (l : List α) :
    ∀ ch ∈ (importButtonChunks tr l c).dropLast, ch.length = c := by
  by_cases hl : l = []
  · subst hl
    rw [importButtonChunks_nil]
    intro ch hch
    exact absurd hch (List.not_mem_nil ch)
  · rw [importButtonChunks_cons tr htr c hc l hl]
    by_cases hrest : importButtonChunks tr (l.drop c) c = []
    · rw [hrest]
      intro ch hch
      exact absurd hch (List.not_mem_nil ch)
    · obtain ⟨r, rs, hr⟩ := List.exists_cons_of_ne_nil hrest
      rw [hr, List.dropLast_cons₂]
      intro ch hch
      rcases List.mem_cons.mp hch with h | h
      · subst h
        have hdrop : l.drop c ≠ [] := by
          intro hd
          rw [hd, importButtonChunks_nil] at hrest
          exact hrest rfl
        have hcl : c < l.length := by
          have := List.length_pos.mpr hdrop
          simp only [List.length_drop] at this
          omega
        simp only [List.length_map, List.length_take]
        omega
      · have := importButtonChunks_full tr htr c hc (l.drop c)
        rw [hr] at this
        exact this ch h
termination_by l.length
decreasing_by
  simp only [List.length_drop]
  have : 0 < l.length := List.length_pos.mpr hl
  omega

/-- C1: for every product list of length `N` and chunk size `C > 0`, the
chunking performed by `import_button` produces exactly `ceil(N/C)` chunks
(`(N + C - 1) / C`), each chunk has size at least 1 and at most `C`, no
chunk contains a padding placeholder (`none`), only the last chunk may be
shorter than `C` (all chunks before the last have size exactly `C`), and
the concatenation of the chunks in dispatch order is the original product
list. -/
theorem import_button_chunking (l : List ParsedProduct) (c : Nat) (hc : 0 < c) :
    (importButtonChunks pyTruthy l c).length = (l.length + c - 1) / c
    ∧ (∀ ch ∈ importButtonChunks pyTruthy l c,
        1 ≤ ch.length ∧ ch.length ≤ c ∧ (none : Option ParsedProduct) ∉ ch)
    ∧ (∀ ch ∈ (importButtonChunks pyTruthy l c).dropLast, ch.length = c)
    ∧ (importButtonChunks pyTruthy l c).flatten = l.map some :=
  ⟨importButtonChunks_length pyTruthy (fun _ => rfl) c hc l,
   importButtonChunks_sizes pyTruthy (fun _ => rfl) c hc l,
   importButtonChunks_full pyTruthy (fun _ => rfl) c hc l,
   importButtonChunks_join pyTruthy (fun _ => rfl) c hc l⟩

/-- Witness for C1: 5 products, chunk size 2 (85/40 scaled down): three
chunks of sizes 2, 2, 1, no padding, concatenation preserved. -/
theorem import_button_chunking_witness :
    0 < 2
    ∧ ((importButtonChunks pyTruthy
          [sampleParsed 1, sampleParsed 2, sampleParsed 3, sampleParsed 4,
           sampleParsed 5] 2).length =
        ([sampleParsed 1, sampleParsed 2, sampleParsed 3, sampleParsed 4,
           sampleParsed 5].length + 2 - 1) / 2
      ∧ (∀ ch ∈ importButtonChunks pyTruthy
            [sampleParsed 1, sampleParsed 2, sampleParsed 3, sampleParsed 4,
             sampleParsed 5] 2,
          1 ≤ ch.length ∧ ch.length ≤ 2 ∧ (none : Option ParsedProduct) ∉ ch)
      ∧ (∀ ch ∈ (importButtonChunks pyTruthy
            [sampleParsed 1, sampleParsed 2, sampleParsed 3, sampleParsed 4,
             sampleParsed 5] 2).dropLast, ch.length = 2)
      ∧ (importButtonChunks pyTruthy
            [sampleParsed 1, sampleParsed 2, sampleParsed 3, sampleParsed 4,
             sampleParsed 5] 2).flatten =
          [sampleParsed 1, sampleParsed 2, sampleParsed 3, sampleParsed 4,
           sampleParsed 5].map some) :=
  ⟨by decide,
   import_button_chunking
     [sampleParsed 1, sampleParsed 2, sampleParsed 3, sampleParsed 4,
      sampleParsed 5] 2 (by decide)⟩

theorem elim_getLast?_cons {α : Type _} {β : Type _} :
    ∀ (l : List α) (a : α) (b : β) (f : α → β),
      (a :: l).getLast?.elim b f = l.getLast?.elim (f a) f := by
  intro l
  induction l with
  | nil => intro a b f; rfl
  | cons k ks ih =>
    intro a b f
    rw [List.getLast?_cons_cons, ih k b f, ih k (f a) f]

theorem supplierLoop_eq (today : Int) (si : SellerInfo) :
    ∀ (l : List OfferRecord) (sid : Option Nat) (acc : List OfferCmd),
      supplierLoop today si sid acc l =
        ((keptOffers today si l).getLast?.elim sid (fun s => some s.id),
         acc ++ terminatedCmds today si l) := by
  intro l
  induction l with
  | nil =>
    intro sid acc
    simp [supplierLoop, keptOffers, terminatedCmds]
  | cons s rest ih =>
    intro sid acc
    have hks : keptOffers today si (s :: rest)
        = if (offerConsidered today si s && offerIdentical s si) = true
          then s :: keptOffers today si rest else keptOffers today si rest := by
      simp only [keptOffers, List.filter_cons]
    have hts : terminatedCmds today si (s :: rest)
        = if (offerConsidered today si s && ! offerIdentical s si) = true
          then (⟨1, s.id, CmdVals.dateEnd (today - 1)⟩ : OfferCmd)
            :: terminatedCmds today si rest
          else terminatedCmds today si rest := by
      simp only [terminatedCmds, List.filter_cons]
      by_cases hb : (offerConsidered today si s && ! offerIdentical s si) = true
      · rw [if_pos hb, if_pos hb, List.map_cons]
      · rw [if_neg hb, if_neg hb]
    by_cases h1 : offerSellerMatch s si = true
    · by_cases h2 : offerCompanyOk s si = true
      · by_cases h3 : offerEnded today s = true
        · -- skipped: already ended before today
          have hc : offerConsidered today si s = false := by
            simp [offerConsidered, h3]
          simp only [supplierLoop]
          rw [if_neg (not_not_intro h1), if_neg (not_not_intro h2), if_pos h3,
            ih, hks, hts, if_neg (by simp [hc]), if_neg (by simp [hc])]
        · have hc : offerConsidered today si s = true := by
            simp [offerConsidered, h1, h2, h3]
          by_cases h4 : offerIdentical s si = true
          · -- kept: field-identical, `seller_id` is set
            simp only [supplierLoop]
            rw [if_neg (not_not_intro h1), if_neg (not_not_intro h2), if_neg h3,
              if_pos h4, ih, hks, hts, if_pos (by simp [hc, h4]),
              if_neg (by simp [h4]), elim_getLast?_cons]
          · -- terminated: conflicting offer
            simp only [supplierLoop]
            rw [if_neg (not_not_intro h1), if_neg (not_not_intro h2), if_neg h3,
              if_neg h4, ih, hks, hts, if_neg (by simp [h4]),
              if_pos (by simp [hc, h4]), List.append_assoc]
            rfl
      · -- skipped: other company
        have hc : offerConsidered today si s = false := by
          simp [offerConsidered, h2]
        simp only [supplierLoop]
        rw [if_neg (not_not_intro h1), if_pos h2, ih, hks, hts,
          if_neg (by simp [hc]), if_neg (by simp [hc])]
    · -- skipped: other seller
      have hc : offerConsidered today si s = false := by
        simp [offerConsidered, h1]
      simp only [supplierLoop]
      rw [if_pos h1, ih, hks, hts, if_neg (by simp [hc]), if_neg (by simp [hc])]

theorem getLast?_cons_ne_none (a : α) (l : List α) : (a :: l).getLast? ≠ none := by
  induction l generalizing a with
  | nil => simp
  | cons k ks ih =>
    rw [List.getLast?_cons_cons]
    exact ih k

/-- `_prepare_supplierinfo` on an existing product: the conflicting
offers are terminated, and the create command is appended exactly when no
passing offer is field-identical. -/
theorem prepareSupplierinfo_some (today : Int) (si : SellerInfo) (p : ProductRecord) :
    prepareSupplierinfo today si (some p) =
      if keptOffers today si p.seller_ids = [] then
        terminatedCmds today si p.seller_ids
          ++ [⟨0, 0, CmdVals.info { si with date_start := some (si.date_start.getD today) }⟩]
      else terminatedCmds today si p.seller_ids := by
  unfold prepareSupplierinfo
  dsimp only
  rw [supplierLoop_eq]
  cases hk : keptOffers today si p.seller_ids with
  | nil => simp
  | cons a l =>
    rw [if_neg (by simp)]
    cases hg : (a :: l).getLast? with
    | none => exact absurd hg (getLast?_cons_ne_none a l)
    | some x => simp

/-- `_prepare_supplierinfo` with no existing product: only the create
command. -/
theorem prepareSupplierinfo_none (today : Int) (si : SellerInfo) :
    prepareSupplierinfo today si none =
      [⟨0, 0, CmdVals.info { si with date_start := some (si.date_start.getD today) }⟩] := rfl

/-- C2: every existing offer of the candidate seller that conflicts (same
seller, company equal to the candidate company or unset, not ended before
today, not field-identical) receives an update command setting `date_end`
to `today - 1`, exactly one calendar day before the current date; and when
no field-identical offer passes those filters, the create command is
emitted carrying `date_start = some (si.date_start.getD today)` — the
current date when the candidate gives no start date, the candidate's own
start date otherwise. -/
theorem offer_termination_window (today : Int) (si : SellerInfo) (p : ProductRecord) :
    (∀ s ∈ p.seller_ids, offerSellerMatch s si = true → offerCompanyOk s si = true →
        offerEnded today s = false → offerIdentical s si = false →
        (⟨1, s.id, CmdVals.dateEnd (today - 1)⟩ : OfferCmd)
          ∈ prepareSupplierinfo today si (some p))
    ∧ ((∀ s ∈ p.seller_ids, offerSellerMatch s si = true → offerCompanyOk s si = true →
          offerEnded today s = false → offerIdentical s si = false) →
        (⟨0, 0, CmdVals.info { si with date_start := some (si.date_start.getD today) }⟩ : OfferCmd)
          ∈ prepareSupplierinfo today si (some p)) := by
  constructor
  · intro s hs hm hcok hend hid
    rw [prepareSupplierinfo_some]
    have hmem : (⟨1, s.id, CmdVals.dateEnd (today - 1)⟩ : OfferCmd)
        ∈ terminatedCmds today si p.seller_ids := by
      refine List.mem_map.mpr ⟨s, ?_, rfl⟩
      exact List.mem_filter.mpr ⟨hs, by simp [offerConsidered, hm, hcok, hend, hid]⟩
    split
    · exact List.mem_append_left _ hmem
    · exact hmem
  · intro hno
    have hk : keptOffers today si p.seller_ids = [] := by
      unfold keptOffers
      rw [List.filter_eq_nil_iff]
      intro s hs hcontra
      rw [Bool.and_eq_true] at hcontra
      obtain ⟨hcons, hid⟩ := hcontra
      unfold offerConsidered at hcons
      rw [Bool.and_eq_true, Bool.and_eq_true] at hcons
      obtain ⟨⟨hm, hcok⟩, hnend⟩ := hcons
      have hend : offerEnded today s = false := by
        cases hE : offerEnded today s
        · rfl
        · rw [hE] at hnend
          exact absurd hnend (by decide)
      exact absurd hid (by rw [hno s hs hm hcok hend]; decide)
    rw [prepareSupplierinfo_some, if_pos hk]
    exact List.mem_append_right _ (by simp)

/-- C3: reconciliation is idempotent — when some existing offer passes the
seller/company/date filters and is field-identical to the candidate, no
create command is emitted and that identical offer is not terminated, so
reapplying the same catalogue line produces zero offer writes for it. -/
theorem reconcile_idempotent (today : Int) (si : SellerInfo) (p : ProductRecord)
    (hnodup : (p.seller_ids.map OfferRecord.id).Nodup)
    (s : OfferRecord) (hs : s ∈ p.seller_ids)
    (hm : offerSellerMatch s si = true) (hcok : offerCompanyOk s si = true)
    (hend : offerEnded today s = false) (hid : offerIdentical s si = true) :
    (∀ cmd ∈ prepareSupplierinfo today si (some p), cmd.command ≠ 0)
    ∧ (∀ v, (⟨1, s.id, v⟩ : OfferCmd) ∉ prepareSupplierinfo today si (some p)) := by
  have hkept : s ∈ keptOffers today si p.seller_ids :=
    List.mem_filter.mpr ⟨hs, by simp [offerConsidered, hm, hcok, hend, hid]⟩
  have hkne : keptOffers today si p.seller_ids ≠ [] := List.ne_nil_of_mem hkept
  rw [prepareSupplierinfo_some, if_neg hkne]
  constructor
  · intro cmd hcmd
    obtain ⟨s', _, rfl⟩ := List.mem_map.mp hcmd
    simp
  · intro v hv
    obtain ⟨s', hs'f, heq⟩ := List.mem_map.mp hv
    have hsid : s'.id = s.id := congrArg OfferCmd.line_id heq
    obtain ⟨hs'mem, hs'cond⟩ := List.mem_filter.mp hs'f
    have hss : s' = s := List.inj_on_of_nodup_map hnodup hs'mem hs hsid
    subst hss
    simp [hid] at hs'cond

/-- C9: reconciliation touches only offers of the candidate seller with a
compatible company that are not already ended before today.  An offer of
another seller, of another company, or ended strictly before today is
never the target of an update command; an offer with no end date or an end
date of today or later is still considered and, when not field-identical,
terminated. -/
theorem reconcile_scope (today : Int) (si : SellerInfo) (p : ProductRecord)
    (hnodup : (p.seller_ids.map OfferRecord.id).Nodup) :
    (∀ s ∈ p.seller_ids,
        (offerSellerMatch s si = false ∨ offerCompanyOk s si = false
          ∨ offerEnded today s = true) →
        ∀ v, (⟨1, s.id, v⟩ : OfferCmd) ∉ prepareSupplierinfo today si (some p))
    ∧ (∀ s ∈ p.seller_ids, offerSellerMatch s si = true → offerCompanyOk s si = true →
        (s.date_end = none ∨ ∃ d, s.date_end = some d ∧ today ≤ d) →
        offerIdentical s si = false →
        (⟨1, s.id, CmdVals.dateEnd (today - 1)⟩ : OfferCmd)
          ∈ prepareSupplierinfo today si (some p)) := by
  constructor
  · intro s hs hskip v hv
    rw [prepareSupplierinfo_some] at hv
    have hterm : (⟨1, s.id, v⟩ : OfferCmd) ∈ terminatedCmds today si p.seller_ids := by
      by_cases hk : keptOffers today si p.seller_ids = []
      · rw [if_pos hk] at hv
        rcases List.mem_append.mp hv with h | h
        · exact h
        · have hcmd : (⟨1, s.id, v⟩ : OfferCmd)
              = ⟨0, 0, CmdVals.info { si with date_start := some (si.date_start.getD today) }⟩ :=
            List.mem_singleton.mp h
          have h10 : (1 : Nat) = 0 := congrArg OfferCmd.command hcmd
          exact absurd h10 (by decide)
      · rw [if_neg hk] at hv
        exact hv
    obtain ⟨s', hs'f, heq⟩ := List.mem_map.mp hterm
    have hsid : s'.id = s.id := congrArg OfferCmd.line_id heq
    obtain ⟨hs'mem, hs'cond⟩ := List.mem_filter.mp hs'f
    have hss : s' = s := List.inj_on_of_nodup_map hnodup hs'mem hs hsid
    subst hss
    rw [Bool.and_eq_true] at hs'cond
    obtain ⟨hcons, _⟩ := hs'cond
    unfold offerConsidered at hcons
    rw [Bool.and_eq_true, Bool.and_eq_true] at hcons
    obtain ⟨⟨hm, hcok⟩, hnend⟩ := hcons
    rcases hskip with h | h | h
    · rw [hm] at h
      exact Bool.noConfusion h
    · rw [hcok] at h
      exact Bool.noConfusion h
    · rw [h] at hnend
      exact absurd hnend (by decide)
  · intro s hs hm hcok hdate hid
    have hend : offerEnded today s = false := by
      unfold offerEnded
      rcases hdate with h | ⟨d, hd, hdl⟩
      · rw [h]
      · rw [hd]
        simp only [decide_eq_false_iff_not]
        omega
    rw [prepareSupplierinfo_some]
    have hmem : (⟨1, s.id, CmdVals.dateEnd (today - 1)⟩ : OfferCmd)
        ∈ terminatedCmds today si p.seller_ids := by
      refine List.mem_map.mpr ⟨s, ?_, rfl⟩
      exact List.mem_filter.mpr ⟨hs, by simp [offerConsidered, hm, hcok, hend, hid]⟩
    split
    · exact List.mem_append_left _ hmem
    · exact hmem

/-- Witness for C3 at a concrete product whose offers contain one
field-identical to the candidate: no create, and no termination of that
offer. -/
theorem reconcile_idempotent_witness :
    (∀ cmd ∈ prepareSupplierinfo 100 sampleSellerInfo (some sampleProductIdentical),
        cmd.command ≠ 0)
    ∧ (∀ v, (⟨1, 12, v⟩ : OfferCmd)
        ∉ prepareSupplierinfo 100 sampleSellerInfo (some sampleProductIdentical)) :=
  reconcile_idempotent 100 sampleSellerInfo sampleProductIdentical (by decide)
    sampleOfferIdentical (by decide) (by decide) (by decide) (by decide) (by decide)

/-- Witness for C9: the other seller's offer (id 13) is never updated,
while the conflicting active offer of the candidate seller (id 11) is
terminated with `date_end = 99` for `today = 100`. -/
theorem reconcile_scope_witness :
    ((⟨1, 13, CmdVals.dateEnd 99⟩ : OfferCmd)
        ∉ prepareSupplierinfo 100 sampleSellerInfo (some sampleProductScope))
    ∧ (⟨1, 11, CmdVals.dateEnd 99⟩ : OfferCmd)
        ∈ prepareSupplierinfo 100 sampleSellerInfo (some sampleProductScope) :=
  ⟨(reconcile_scope 100 sampleSellerInfo sampleProductScope (by decide)).1
      sampleOfferOther (by decide) (Or.inl (by decide)) (CmdVals.dateEnd 99),
   (reconcile_scope 100 sampleSellerInfo sampleProductScope (by decide)).2
      sampleOfferConflict (by decide) (by decide) (by decide) (Or.inl (by decide))
      (by decide)⟩

/-- Every command `_prepare_supplierinfo` emits is an update (`1`) or a
create (`0`). -/
theorem prepareSupplierinfo_commands (today : Int) (si : SellerInfo)
    (product : Option ProductRecord) :
    ∀ cmd ∈ prepareSupplierinfo today si product,
      cmd.command = 1 ∨ cmd.command = 0 := by
  cases product with
  | none =>
    rw [prepareSupplierinfo_none]
    intro cmd hcmd
    rw [List.mem_singleton.mp hcmd]
    exact Or.inr rfl
  | some p =>
    rw [prepareSupplierinfo_some]
    have hterm : ∀ cmd ∈ terminatedCmds today si p.seller_ids,
        cmd.command = 1 ∨ cmd.command = 0 := by
      intro cmd hcmd
      obtain ⟨s, _, rfl⟩ := List.mem_map.mp hcmd
      exact Or.inl rfl
    split
    · intro cmd hcmd
      rcases List.mem_append.mp hcmd with h | h
      · exact hterm cmd h
      · rw [List.mem_singleton.mp h]
        exact Or.inr rfl
    · exact hterm

theorem runOfferCommands_shapes (pid : Nat) :
    ∀ (cmds : List OfferCmd) (ops : List WriteOp),
      runOfferCommands pid cmds = .ok ops →
      ∀ op ∈ ops, (∃ a b, op = WriteOp.offerWrite a b)
        ∨ (∃ b, op = WriteOp.offerCreate pid b) := by
  intro cmds
  induction cmds with
  | nil =>
    intro ops h op hop
    unfold runOfferCommands at h
    injection h with h'
    subst h'
    exact absurd hop (List.not_mem_nil op)
  | cons cmd rest ih =>
    intro ops h op hop
    unfold runOfferCommands at h
    by_cases h1 : cmd.command = 1
    · rw [if_pos h1] at h
      cases hr : runOfferCommands pid rest with
      | error e =>
        rw [hr] at h
        simp only [Except.map] at h
        exact Except.noConfusion h
      | ok ops' =>
        rw [hr] at h
        simp only [Except.map] at h
        injection h with h'
        subst h'
        rcases List.mem_cons.mp hop with rfl | hmem
        · exact Or.inl ⟨_, _, rfl⟩
        · exact ih ops' hr op hmem
    · rw [if_neg h1] at h
      by_cases h0 : cmd.command = 0
      · rw [if_pos h0] at h
        cases hr : runOfferCommands pid rest with
        | error e =>
          rw [hr] at h
          simp only [Except.map] at h
          exact Except.noConfusion h
        | ok ops' =>
          rw [hr] at h
          simp only [Except.map] at h
          injection h with h'
          subst h'
          rcases List.mem_cons.mp hop with rfl | hmem
          · exact Or.inr ⟨_, rfl⟩
          · exact ih ops' hr op hmem
      · rw [if_neg h0] at h
        exact Except.noConfusion h

theorem runOfferCommands_ok (pid : Nat) :
    ∀ (cmds : List OfferCmd),
      (∀ cmd ∈ cmds, cmd.command = 1 ∨ cmd.command = 0) →
      ∃ ops, runOfferCommands pid cmds = .ok ops := by
  intro cmds
  induction cmds with
  | nil => exact fun _ => ⟨[], rfl⟩
  | cons cmd rest ih =>
    intro hall
    obtain ⟨ops, hops⟩ := ih (fun c hc => hall c (List.mem_cons_of_mem cmd hc))
    rcases hall cmd (List.mem_cons_self cmd rest) with h1 | h0
    · refine ⟨WriteOp.offerWrite cmd.line_id cmd.values :: ops, ?_⟩
      unfold runOfferCommands
      rw [if_pos h1, hops]
      rfl
    · refine ⟨WriteOp.offerCreate pid cmd.values :: ops, ?_⟩
      unfold runOfferCommands
      by_cases h1 : cmd.command = 1
      · rw [if_pos h1, hops]
        rw [h1] at h0
        exact absurd h0 (by decide)
      · rw [if_neg h1, if_pos h0, hops]
        rfl

/-- C4: a parsed line with a falsy (`None` or empty) barcode produces no
create and no update: `_prepare_product` returns a falsy result so
`_create_update_products` skips the line, performing no write at all, and
the reject message is appended to the log. -/
theorem barcode_rejection (today : Int) (store : List ProductRecord)
    (matchUom matchCurrency : String → Nat) (companyCtx : Option Nat)
    (seller : Option Nat) (chatter : List String) (pp : ParsedProduct)
    (h : barcodeTruthy pp.barcode = false) :
    prepareProduct today store matchUom matchCurrency companyCtx seller pp chatter
      = (none, chatter ++ [rejectMsg pp])
    ∧ ∀ nid, createUpdateProducts today store matchUom matchCurrency companyCtx
        seller nid [pp] = .ok (rejectMsg pp, []) := by
  have hstep : ∀ ch : List String,
      prepareProduct today store matchUom matchCurrency companyCtx seller pp ch
        = (none, ch ++ [rejectMsg pp]) := by
    intro ch
    unfold prepareProduct
    rw [h, if_neg (by decide)]
  refine ⟨hstep chatter, ?_⟩
  intro nid
  unfold createUpdateProducts
  unfold createUpdateLoop
  rw [hstep []]
  simp only [List.nil_append]
  unfold createUpdateLoop
  simp only [Except.map]
  rfl

/-- C8: product matching is an exact-barcode lookup with
`active_test=False` — the search result is a product of the store whose
barcode equals the searched one, any product carrying the barcode
(archived or not) is found, and with no such product the result is empty;
`_prepare_product` puts exactly the search result into `recordset`, and
`_create_update_product` then writes the found product (never creating a
duplicate) or creates a new one when the lookup was empty. -/
theorem product_match_by_barcode (store : List ProductRecord) (bc : String)
    (hbc : bc ≠ "") (today : Int) (matchUom matchCurrency : String → Nat)
    (companyCtx : Option Nat) (seller : Option Nat) (chatter : List String)
    (pp : ParsedProduct) (hpp : pp.barcode = some bc) :
    (∀ q, searchProduct store false (some bc) = some q →
        q ∈ store ∧ q.barcode = some bc)
    ∧ ((∃ p ∈ store, p.barcode = some bc) →
        (searchProduct store false (some bc)).isSome = true)
    ∧ ((∀ p ∈ store, p.barcode ≠ some bc) →
        searchProduct store false (some bc) = none)
    ∧ (∃ vals,
        (prepareProduct today store matchUom matchCurrency companyCtx seller
            pp chatter).1 = some vals
        ∧ vals.recordset = searchProduct store false (some bc))
    ∧ (∀ (vals : ProductVals) (q : ProductRecord) (nid : Nat),
        vals.recordset = some q →
        ∀ ops m, createUpdateProduct nid vals = .ok (ops, m) →
          (∀ v, WriteOp.productCreate nid v ∉ ops)
          ∧ WriteOp.productWrite q.id
              { vals with recordset := none, seller_ids := [] } ∈ ops)
    ∧ (∀ (vals : ProductVals) (nid : Nat), vals.recordset = none →
        ∃ ops m, createUpdateProduct nid vals = .ok (ops, m)
          ∧ WriteOp.productCreate nid { vals with recordset := none } ∈ ops) := by
  refine ⟨?_, ?_, ?_, ?_, ?_, ?_⟩
  · intro q hq
    unfold searchProduct at hq
    cases hf : store.filter (fun p => p.barcode == some bc && (!false || p.active)) with
    | nil =>
      rw [hf] at hq
      exact absurd hq (by simp)
    | cons x xs =>
      rw [hf] at hq
      have hxq : x = q := by
        simp only [List.head?_cons, Option.some.injEq] at hq
        exact hq
      subst hxq
      have hx : x ∈ store.filter (fun p => p.barcode == some bc && (!false || p.active)) := by
        rw [hf]
        exact List.mem_cons_self x xs
      obtain ⟨hmem, hcond⟩ := List.mem_filter.mp hx
      rw [Bool.and_eq_true] at hcond
      exact ⟨hmem, by
        have := hcond.1
        rwa [beq_iff_eq] at this⟩
  · rintro ⟨p, hp, hbcp⟩
    have hmem : p ∈ store.filter (fun p => p.barcode == some bc && (!false || p.active)) :=
      List.mem_filter.mpr ⟨hp, by simp [hbcp]⟩
    unfold searchProduct
    cases hf : store.filter (fun p => p.barcode == some bc && (!false || p.active)) with
    | nil =>
      rw [hf] at hmem
      exact absurd hmem (List.not_mem_nil p)
    | cons x xs => simp
  · intro hall
    unfold searchProduct
    have hf : store.filter (fun p => p.barcode == some bc && (!false || p.active)) = [] := by
      rw [List.filter_eq_nil_iff]
      intro p hp hcond
      rw [Bool.and_eq_true] at hcond
      have := hcond.1
      rw [beq_iff_eq] at this
      exact hall p hp this
    rw [hf]
    rfl
  · have hbt : barcodeTruthy pp.barcode = true := by
      rw [hpp]
      simp only [barcodeTruthy]
      exact bne_iff_ne.mpr hbc
    unfold prepareProduct
    rw [if_pos hbt]
    exact ⟨_, rfl, by rw [hpp]⟩
  · intro vals q nid hrec ops m hok
    unfold createUpdateProduct at hok
    rw [hrec] at hok
    dsimp only at hok
    cases hr : runOfferCommands q.id vals.seller_ids with
    | error e =>
      rw [hr] at hok
      simp only [Except.map] at hok
      exact Except.noConfusion hok
    | ok offerOps =>
      rw [hr] at hok
      simp only [Except.map] at hok
      injection hok with h'
      have hops : ops = offerOps ++ [WriteOp.productWrite q.id
          { vals with recordset := none, seller_ids := [] }] :=
        (congrArg Prod.fst h').symm
      subst hops
      constructor
      · intro v hv
        rcases List.mem_append.mp hv with hin | hin
        · rcases runOfferCommands_shapes q.id vals.seller_ids offerOps hr _ hin with
            ⟨a, b, hab⟩ | ⟨b, hb⟩
          · exact WriteOp.noConfusion hab
          · exact WriteOp.noConfusion hb
        · exact WriteOp.noConfusion (List.mem_singleton.mp hin)
      · exact List.mem_append_right _ (by simp)
  · intro vals nid hrec
    have hcu : createUpdateProduct nid vals =
        .ok ([WriteOp.productCreate nid { vals with recordset := none }]
            ++ (if vals.active then [] else [WriteOp.productArchive nid]),
          "Product created/updated " ++ toString nid ++ "\n") := by
      unfold createUpdateProduct
      rw [hrec]
    exact ⟨_, _, hcu, List.mem_append_left _ (by simp)⟩

/-- C10: every offer-write command `_prepare_supplierinfo` produces is an
update tuple `(1, id, vals)` or a create tuple `(0, 0, vals)`, so for
every `product_vals` returned by `_prepare_product` the
`RuntimeError("Command ... not supported")` branch of
`_create_update_product` is unreachable: the call succeeds. -/
theorem offer_commands_total (today : Int) (si : SellerInfo)
    (product : Option ProductRecord) :
    (∀ cmd ∈ prepareSupplierinfo today si product,
        cmd.command = 1 ∨ cmd.command = 0)
    ∧ (∀ (store : List ProductRecord) (matchUom matchCurrency : String → Nat)
        (companyCtx : Option Nat) (seller : Option Nat) (pp : ParsedProduct)
        (chatter ch : List String) (vals : ProductVals) (nid : Nat),
        prepareProduct today store matchUom matchCurrency companyCtx seller pp chatter
          = (some vals, ch) →
        ∃ r, createUpdateProduct nid vals = Except.ok r) := by
  refine ⟨prepareSupplierinfo_commands today si product, ?_⟩
  intro store matchUom matchCurrency companyCtx seller pp chatter ch vals nid h
  unfold prepareProduct at h
  by_cases hbt : barcodeTruthy pp.barcode = true
  · rw [if_pos hbt] at h
    have h1 := congrArg Prod.fst h
    simp only [Option.some.injEq] at h1
    have hsell : vals.seller_ids = prepareSupplierinfo today
        { name := seller
          product_code := pp.product_code
          price := pp.price
          currency_id := some (matchCurrency pp.currency)
          min_qty := pp.min_qty
          company_id := companyCtx
          delay := pp.sale_delay.getD 0 }
        (searchProduct store false pp.barcode) := by
      rw [← h1]
    obtain ⟨ops, hops⟩ := runOfferCommands_ok
      ((vals.recordset.map ProductRecord.id).getD 0) vals.seller_ids
      (by rw [hsell]; exact prepareSupplierinfo_commands today _ _)
    cases hrec : vals.recordset with
    | none =>
      refine ⟨([WriteOp.productCreate nid { vals with recordset := none }]
            ++ (if vals.active then [] else [WriteOp.productArchive nid]),
          "Product created/updated " ++ toString nid ++ "\n"), ?_⟩
      unfold createUpdateProduct
      rw [hrec]
    | some q =>
      obtain ⟨ops', hops'⟩ := runOfferCommands_ok q.id vals.seller_ids
        (by rw [hsell]; exact prepareSupplierinfo_commands today _ _)
      refine ⟨(ops' ++ [WriteOp.productWrite q.id
            { vals with recordset := none, seller_ids := [] }],
          "Product created/updated " ++ toString q.id ++ "\n"), ?_⟩
      unfold createUpdateProduct
      rw [hrec]
      dsimp only
      rw [hops']
      rfl
  · rw [if_neg hbt] at h
    have h1 := congrArg Prod.fst h
    exact absurd h1 (by simp)

/-- Witness for C4: a line without barcode is skipped with no write and
the reject message logged. -/
theorem barcode_rejection_witness :
    prepareProduct 100 [] (fun _ => 1) (fun _ => 2) none (some 7) sampleNoBarcode []
      = (none, [] ++ [rejectMsg sampleNoBarcode])
    ∧ ∀ nid, createUpdateProducts 100 [] (fun _ => 1) (fun _ => 2) none (some 7)
        nid [sampleNoBarcode] = .ok (rejectMsg sampleNoBarcode, []) :=
  barcode_rejection 100 [] (fun _ => 1) (fun _ => 2) none (some 7) []
    sampleNoBarcode (by decide)

/-- Witness for C8 against a store holding only an archived product with
the matching barcode. -/
theorem product_match_by_barcode_witness :
    (∀ q, searchProduct [sampleArchived] false (some "123") = some q →
        q ∈ [sampleArchived] ∧ q.barcode = some "123")
    ∧ ((∃ p ∈ [sampleArchived], p.barcode = some "123") →
        (searchProduct [sampleArchived] false (some "123")).isSome = true)
    ∧ ((∀ p ∈ [sampleArchived], p.barcode ≠ some "123") →
        searchProduct [sampleArchived] false (some "123") = none)
    ∧ (∃ vals,
        (prepareProduct 100 [sampleArchived] (fun _ => 1) (fun _ => 2) none (some 7)
            sampleParsedMatch []).1 = some vals
        ∧ vals.recordset = searchProduct [sampleArchived] false (some "123"))
    ∧ (∀ (vals : ProductVals) (q : ProductRecord) (nid : Nat),
        vals.recordset = some q →
        ∀ ops m, createUpdateProduct nid vals = .ok (ops, m) →
          (∀ v, WriteOp.productCreate nid v ∉ ops)
          ∧ WriteOp.productWrite q.id
              { vals with recordset := none, seller_ids := [] } ∈ ops)
    ∧ (∀ (vals : ProductVals) (nid : Nat), vals.recordset = none →
        ∃ ops m, createUpdateProduct nid vals = .ok (ops, m)
          ∧ WriteOp.productCreate nid { vals with recordset := none } ∈ ops) :=
  product_match_by_barcode [sampleArchived] "123" (by decide) 100 (fun _ => 1)
    (fun _ => 2) none (some 7) [] sampleParsedMatch (by decide)

/-- `_parse_xml` always yields a root or an error message. -/
theorem parseXml_total (fromstring : List Nat → Option Nat)
    (parser : Nat → Bool → ParserOutcome) (data : List Nat) :
    (parseXml fromstring parser data).1.isSome = true
    ∨ (parseXml fromstring parser data).2.isSome = true := by
  unfold parseXml
  by_cases hd : data = []
  · rw [if_pos hd]
    exact Or.inr rfl
  · rw [if_neg hd]
    cases hf : fromstring data with
    | none => exact Or.inr rfl
    | some root =>
      dsimp only
      cases hp : parser root true with
      | raised => exact Or.inl rfl
      | value v => exact Or.inl rfl

/-- C5 counterexample: with the base parser of this module — which
signals an unrecognized format by raising `NotImplementedError` — a
well-formed XML input makes `product_file_change` raise the fatal
`UserError("Unsupported XML document")`; the warning dict is not
returned, so the unrecognized-format case is not non-fatal. -/
theorem unsupported_detection_counterexample :
    productFileChange (fun _ => some 0) parseXmlCatalogueBase "catalogue.xml" [60]
      = ChangeResult.raised "Unsupported XML document"
    ∧ ∀ t m, productFileChange (fun _ => some 0) parseXmlCatalogueBase
        "catalogue.xml" [60] ≠ ChangeResult.warning t m := by
  refine ⟨by decide, ?_⟩
  intro t m h
  have he : productFileChange (fun _ => some 0) parseXmlCatalogueBase
      "catalogue.xml" [60] = ChangeResult.raised "Unsupported XML document" := by decide
  rw [he] at h
  exact ChangeResult.noConfusion h

/-- C5 amended: at detection time the failure modes are signalled
distinctly, but an unrecognized format is fatal whenever the parser
signals it by raising (as the in-module base parser always does):
malformed XML raises `UserError("This XML file is not XML-compliant")`,
an unsupported-format raise becomes the fatal
`UserError("Unsupported XML document")`, and the non-fatal warning is
returned only when detection returns `None` without raising. -/
theorem detection_error_signalling (fromstring : List Nat → Option Nat)
    (parser : Nat → Bool → ParserOutcome) (filename : String) (file : List Nat)
    (hfn : filename ≠ "") (hd : file ≠ []) :
    (fromstring file = none →
        productFileChange fromstring parser filename file
          = ChangeResult.raised "This XML file is not XML-compliant")
    ∧ (∀ root, fromstring file = some root →
        parser root true = ParserOutcome.raised →
        productFileChange fromstring parser filename file
          = ChangeResult.raised "Unsupported XML document")
    ∧ (∀ root, fromstring file = some root →
        parser root true = ParserOutcome.value none →
        productFileChange fromstring parser filename file
          = ChangeResult.warning "Unsupported file format"
              ("This file " ++ filename ++ " cannot be imported.")) := by
  have hor : ¬(filename = "" ∨ file = []) := not_or.mpr ⟨hfn, hd⟩
  refine ⟨?_, ?_, ?_⟩
  · intro hf
    have hx : parseXml fromstring parser file
        = (none, some "This XML file is not XML-compliant") := by
      unfold parseXml
      rw [if_neg hd, hf]
    unfold productFileChange parseFile
    rw [if_neg hor, if_neg hfn, if_neg hd, hx]
  · intro root hf hp
    have hx : parseXml fromstring parser file
        = (some root, some "Unsupported XML document") := by
      unfold parseXml
      rw [if_neg hd, hf]
      dsimp only
      rw [hp]
    unfold productFileChange parseFile
    rw [if_neg hor, if_neg hfn, if_neg hd, hx]
  · intro root hf hp
    have hx : parseXml fromstring parser file = (some root, none) := by
      unfold parseXml
      rw [if_neg hd, hf]
      dsimp only
      rw [hp]
    unfold productFileChange parseFile
    rw [if_neg hor, if_neg hfn, if_neg hd, hx]
    dsimp only
    rw [hp]

/-- Witness for the amended C5 at a parser whose detection returns `None`
for the given root: the warning dict is returned. -/
theorem detection_error_signalling_witness :
    (((fun _ => some 5) : List Nat → Option Nat) [60] = none →
        productFileChange (fun _ => some 5) (fun _ _ => ParserOutcome.value none)
          "catalogue.xml" [60]
          = ChangeResult.raised "This XML file is not XML-compliant")
    ∧ (∀ root, ((fun _ => some 5) : List Nat → Option Nat) [60] = some root →
        (fun _ _ => ParserOutcome.value none) root true = ParserOutcome.raised →
        productFileChange (fun _ => some 5) (fun _ _ => ParserOutcome.value none)
          "catalogue.xml" [60]
          = ChangeResult.raised "Unsupported XML document")
    ∧ (∀ root, ((fun _ => some 5) : List Nat → Option Nat) [60] = some root →
        (fun _ _ => ParserOutcome.value none) root true = ParserOutcome.value none →
        productFileChange (fun _ => some 5) (fun _ _ => ParserOutcome.value none)
          "catalogue.xml" [60]
          = ChangeResult.warning "Unsupported file format"
              ("This file " ++ "catalogue.xml" ++ " cannot be imported.")) :=
  detection_error_signalling (fun _ => some 5) (fun _ _ => ParserOutcome.value none)
    "catalogue.xml" [60] (by decide) (by decide)

/-- C6: a parsed catalogue with an empty products list makes
`import_button` abort with the `UserError` "This catalogue doesn't have
any product!" before resolving the company or the seller, before
scheduling any chunk and before recording the source document: the event
trace is empty. -/
theorem empty_catalogue_aborts (lookupPartner : String → Option Nat)
    (lookupCompany : Nat → Option Nat) (lookupSeller : String → Option Nat)
    (cat : Catalogue) (c : Nat) (h : cat.products = []) :
    importButtonRun lookupPartner lookupCompany lookupSeller (.ok cat) c
      = ([], some "This catalogue doesn't have any product!")
    ∧ (∀ sid, ImportEvent.resolveSeller sid
        ∉ (importButtonRun lookupPartner lookupCompany lookupSeller (.ok cat) c).1)
    ∧ (∀ ch sid, ImportEvent.scheduleChunk ch sid
        ∉ (importButtonRun lookupPartner lookupCompany lookupSeller (.ok cat) c).1)
    ∧ (∀ sid, ImportEvent.recordSource sid
        ∉ (importButtonRun lookupPartner lookupCompany lookupSeller (.ok cat) c).1) := by
  have he : importButtonRun lookupPartner lookupCompany lookupSeller (.ok cat) c
      = ([], some "This catalogue doesn't have any product!") := by
    unfold importButtonRun
    dsimp only
    rw [if_pos h]
  refine ⟨he, ?_, ?_, ?_⟩
  · intro sid
    rw [he]
    exact List.not_mem_nil _
  · intro ch sid
    rw [he]
    exact List.not_mem_nil _
  · intro sid
    rw [he]
    exact List.not_mem_nil _

/-- C7: company resolution is optional — a catalogue naming no company,
or one whose company reference or `res.company` record cannot be
resolved, yields `company_id = False` and no error — while seller
resolution is required: when the seller lookup fails the run aborts with
a raised error and no chunk is scheduled, and every scheduled chunk
carries the id of the successfully resolved seller. -/
theorem resolution_requirements (lookupPartner : String → Option Nat)
    (lookupCompany : Nat → Option Nat) (lookupSeller : String → Option Nat)
    (cat : Catalogue) (c : Nat) (hne : cat.products ≠ []) :
    ((cat.company = none
        ∨ (∃ r, cat.company = some r ∧ lookupPartner r = none)
        ∨ (∃ r pid, cat.company = some r ∧ lookupPartner r = some pid
            ∧ lookupCompany pid = none)) →
      getCompanyId lookupPartner lookupCompany cat = none)
    ∧ (∀ sid, lookupSeller cat.seller = some sid →
        (importButtonRun lookupPartner lookupCompany lookupSeller (.ok cat) c).2 = none)
    ∧ (lookupSeller cat.seller = none →
        ((importButtonRun lookupPartner lookupCompany lookupSeller (.ok cat) c).2).isSome = true
        ∧ ∀ ch sid, ImportEvent.scheduleChunk ch sid
            ∉ (importButtonRun lookupPartner lookupCompany lookupSeller (.ok cat) c).1)
    ∧ (∀ ch sid, ImportEvent.scheduleChunk ch sid
          ∈ (importButtonRun lookupPartner lookupCompany lookupSeller (.ok cat) c).1 →
        lookupSeller cat.seller = some sid) := by
  refine ⟨?_, ?_, ?_, ?_⟩
  · rintro (hc | ⟨r, hr, hlp⟩ | ⟨r, pid, hr, hlp, hlc⟩)
    · unfold getCompanyId
      rw [hc]
    · unfold getCompanyId
      rw [hr]
      dsimp only
      rw [hlp]
    · unfold getCompanyId
      rw [hr]
      dsimp only
      rw [hlp]
      dsimp only
      exact hlc
  · intro sid hsid
    unfold importButtonRun
    dsimp only
    rw [if_neg hne, hsid]
  · intro hnone
    have he : importButtonRun lookupPartner lookupCompany lookupSeller (.ok cat) c
        = ([ImportEvent.resolveCompany (getCompanyId lookupPartner lookupCompany cat)],
           some "No partner found") := by
      unfold importButtonRun
      dsimp only
      rw [if_neg hne, hnone]
    refine ⟨by rw [he]; rfl, ?_⟩
    intro ch sid hmem
    rw [he] at hmem
    exact ImportEvent.noConfusion (List.mem_singleton.mp hmem)
  · intro ch sid hmem
    cases hls : lookupSeller cat.seller with
    | none =>
      unfold importButtonRun at hmem
      dsimp only at hmem
      rw [if_neg hne, hls] at hmem
      dsimp only at hmem
      exact absurd (List.mem_singleton.mp hmem) (by intro he; exact ImportEvent.noConfusion he)
    | some sid' =>
      unfold importButtonRun at hmem
      dsimp only at hmem
      rw [if_neg hne, hls] at hmem
      dsimp only at hmem
      rcases List.mem_append.mp hmem with hm | hm
      · rcases List.mem_append.mp hm with hm2 | hm2
        · rcases List.mem_cons.mp hm2 with he | he2
          · exact ImportEvent.noConfusion he
          · exact ImportEvent.noConfusion (List.mem_singleton.mp he2)
        · obtain ⟨ch', _, heq⟩ := List.mem_map.mp hm2
          injection heq with h1 h2
          exact congrArg some h2
      · exact ImportEvent.noConfusion (List.mem_singleton.mp hm)

/-- Witness for C6 on a concrete empty catalogue. -/
theorem empty_catalogue_aborts_witness :
    importButtonRun (fun _ => none) (fun _ => none) (fun _ => some 7)
        (.ok sampleCatalogueEmpty) 40
      = ([], some "This catalogue doesn't have any product!")
    ∧ (∀ sid, ImportEvent.resolveSeller sid
        ∉ (importButtonRun (fun _ => none) (fun _ => none) (fun _ => some 7)
            (.ok sampleCatalogueEmpty) 40).1)
    ∧ (∀ ch sid, ImportEvent.scheduleChunk ch sid
        ∉ (importButtonRun (fun _ => none) (fun _ => none) (fun _ => some 7)
            (.ok sampleCatalogueEmpty) 40).1)
    ∧ (∀ sid, ImportEvent.recordSource sid
        ∉ (importButtonRun (fun _ => none) (fun _ => none) (fun _ => some 7)
            (.ok sampleCatalogueEmpty) 40).1) :=
  empty_catalogue_aborts (fun _ => none) (fun _ => none) (fun _ => some 7)
    sampleCatalogueEmpty 40 (by decide)

/-- Witness for C7 on a concrete catalogue whose company cannot be
resolved while the seller resolves to id 7. -/
theorem resolution_requirements_witness :
    ((sampleCatalogue.company = none
        ∨ (∃ r, sampleCatalogue.company = some r
            ∧ (fun (_ : String) => (none : Option Nat)) r = none)
        ∨ (∃ r pid, sampleCatalogue.company = some r
            ∧ (fun (_ : String) => (none : Option Nat)) r = some pid
            ∧ (fun (_ : Nat) => (none : Option Nat)) pid = none)) →
      getCompanyId (fun _ => none) (fun _ => none) sampleCatalogue = none)
    ∧ (∀ sid, (fun (_ : String) => some 7) sampleCatalogue.seller = some sid →
        (importButtonRun (fun _ => none) (fun _ => none) (fun _ => some 7)
            (.ok sampleCatalogue) 2).2 = none)
    ∧ ((fun (_ : String) => some 7) sampleCatalogue.seller = none →
        ((importButtonRun (fun _ => none) (fun _ => none) (fun _ => some 7)
            (.ok sampleCatalogue) 2).2).isSome = true
        ∧ ∀ ch sid, ImportEvent.scheduleChunk ch sid
            ∉ (importButtonRun (fun _ => none) (fun _ => none) (fun _ => some 7)
                (.ok sampleCatalogue) 2).1)
    ∧ (∀ ch sid, ImportEvent.scheduleChunk ch sid
          ∈ (importButtonRun (fun _ => none) (fun _ => none) (fun _ => some 7)
              (.ok sampleCatalogue) 2).1 →
        (fun (_ : String) => some 7) sampleCatalogue.seller = some sid) :=
  resolution_requirements (fun _ => none) (fun _ => none) (fun _ => some 7)
    sampleCatalogue 2 (by decide)

end ProductImport
